import Mathlib

/-!
Verification of the error/diagnostics subsystem of the hjson-rust
repository (`src/hjson/src/error.rs`), shallowly embedded in Lean 4.

The embedding mirrors the source:
* `Hjson.ErrorCode` embeds the Rust `enum ErrorCode` (error.rs lines 17-72).
* `Hjson.ErrorCode.debugFmt` embeds `impl fmt::Debug for ErrorCode`
  (lines 74-103): each fixed variant prints a fixed literal string and the
  `Custom` variant prints its contained message verbatim via `write!(f, "{}", msg)`.
* `Hjson.ErrorCode.beq` embeds the `#[derive(PartialEq)]` structural equality
  of `ErrorCode` (line 17).
* Foreign failure types (`std::io::Error`, `FromUtf8Error`, `ParseIntError`)
  are opaque to the source module: it only delegates their `Display`
  rendering and `description`, and stores them unchanged.  They are embedded
  as structures carrying exactly those two observable strings plus an opaque
  payload tag so that distinct failures stay distinct.
* `Hjson.Error` embeds the Rust `enum Error` (lines 107-120).
* `Hjson.Error.description` and `Hjson.Error.cause` embed
  `impl error::Error for Error` (lines 122-141); the Rust `cause` returns
  `Option<&dyn error::Error>`, embedded as an `Option Hjson.Cause` where
  `Hjson.Cause` records which wrapped foreign failure is handed back.
* `Hjson.Error.displayFmt` embeds `impl fmt::Display for Error` (lines 143-154).
* `Hjson.Error.fromIoError` / `fromUtf8Error` / `fromParseIntError` embed the
  three `From` impls (lines 156-172).
* `Hjson.deError.custom` and `Hjson.serError.custom` embed the two `custom`
  constructors from `impl de::Error for Error` (lines 174-178) and
  `impl ser::Error for Error` (lines 180-185); the Rust argument is any
  `T: fmt::Display` and only `msg.to_string()` (its displayed form) is used,
  so the embedding takes that displayed form as a `String`.
-/

namespace Hjson

/-- Embeds `enum ErrorCode` from error.rs lines 17-72: the closed set of
syntax-error categories, with a `Custom` catchall carrying free text. -/
inductive ErrorCode where
  | Custom (msg : String)
  | EOFWhileParsingList
  | EOFWhileParsingObject
  | EOFWhileParsingString
  | EOFWhileParsingValue
  | ExpectedColon
  | ExpectedListCommaOrEnd
  | ExpectedObjectCommaOrEnd
  | ExpectedSomeIdent
  | ExpectedSomeValue
  | InvalidEscape
  | InvalidNumber
  | InvalidUnicodeCodePoint
  | KeyMustBeAString
  | LoneLeadingSurrogateInHexEscape
  | TrailingCharacters
  | UnexpectedEndOfHexEscape
  | PunctuatorInQlString
deriving DecidableEq

/-- Embeds `impl fmt::Debug for ErrorCode` (error.rs lines 74-103): the
debug rendering writes a fixed literal per fixed variant, and for
`Custom(msg)` writes the message itself via `write!(f, "{}", msg)`
(the raw text, not a quoted/escaped debug form). -/
def ErrorCode.debugFmt : ErrorCode → String
  | .Custom msg => msg
  | .EOFWhileParsingList => "EOF while parsing a list"
  | .EOFWhileParsingObject => "EOF while parsing an object"
  | .EOFWhileParsingString => "EOF while parsing a string"
  | .EOFWhileParsingValue => "EOF while parsing a value"
  | .ExpectedColon => "expected `:`"
  | .ExpectedListCommaOrEnd => "expected `,` or `]`"
  | .ExpectedObjectCommaOrEnd => "expected `,` or `\x7d`"
  | .ExpectedSomeIdent => "expected ident"
  | .ExpectedSomeValue => "expected value"
  | .InvalidEscape => "invalid escape"
  | .InvalidNumber => "invalid number"
  | .InvalidUnicodeCodePoint => "invalid unicode code point"
  | .KeyMustBeAString => "key must be a string"
  | .LoneLeadingSurrogateInHexEscape => "lone leading surrogate in hex escape"
  | .TrailingCharacters => "trailing characters"
  | .UnexpectedEndOfHexEscape => "unexpected end of hex escape"
  | .PunctuatorInQlString => "found a punctuator character when expecting a quoteless string"

/-- Embeds the `#[derive(PartialEq)]` on `ErrorCode` (error.rs line 17):
derived structural equality — same variant, and for `Custom` the same
contained string. -/
def ErrorCode.beq : ErrorCode → ErrorCode → Bool
  | .Custom a, .Custom b => a == b
  | .EOFWhileParsingList, .EOFWhileParsingList => true
  | .EOFWhileParsingObject, .EOFWhileParsingObject => true
  | .EOFWhileParsingString, .EOFWhileParsingString => true
  | .EOFWhileParsingValue, .EOFWhileParsingValue => true
  | .ExpectedColon, .ExpectedColon => true
  | .ExpectedListCommaOrEnd, .ExpectedListCommaOrEnd => true
  | .ExpectedObjectCommaOrEnd, .ExpectedObjectCommaOrEnd => true
  | .ExpectedSomeIdent, .ExpectedSomeIdent => true
  | .ExpectedSomeValue, .ExpectedSomeValue => true
  | .InvalidEscape, .InvalidEscape => true
  | .InvalidNumber, .InvalidNumber => true
  | .InvalidUnicodeCodePoint, .InvalidUnicodeCodePoint => true
  | .KeyMustBeAString, .KeyMustBeAString => true
  | .LoneLeadingSurrogateInHexEscape, .LoneLeadingSurrogateInHexEscape => true
  | .TrailingCharacters, .TrailingCharacters => true
  | .UnexpectedEndOfHexEscape, .UnexpectedEndOfHexEscape => true
  | .PunctuatorInQlString, .PunctuatorInQlString => true
  | _, _ => false

/-- Embeds `std::io::Error` as the source module observes it: an opaque
payload (kept so distinct failures stay distinct), a `Display` rendering
and a `description` string.  The source never inspects anything else. -/
structure IoError where
  payload : Nat
  display : String
  shortDescription : String
deriving DecidableEq

/-- Embeds `std::string::FromUtf8Error` as observed by the source module. -/
structure FromUtf8Error where
  payload : Nat
  display : String
  shortDescription : String
deriving DecidableEq

/-- Embeds `std::num::ParseIntError` as observed by the source module. -/
structure ParseIntError where
  payload : Nat
  display : String
  shortDescription : String
deriving DecidableEq

/-- Embeds `enum Error` from error.rs lines 107-120: a syntax failure with
category, line and column, or one of three wrapped foreign failures. -/
inductive Error where
  | Syntax (code : ErrorCode) (line : Nat) (col : Nat)
  | Io (error : IoError)
  | FromUtf8 (error : FromUtf8Error)
  | ParseIntError (error : ParseIntError)
deriving DecidableEq

/-- The value handed back by the `cause` accessor: in Rust it is
`Option<&dyn error::Error>`, a reference to the wrapped foreign failure
itself.  This sum records which foreign failure is returned, unchanged. -/
inductive Cause where
  | ioErr (e : IoError)
  | utf8Err (e : FromUtf8Error)
  | parseIntErr (e : ParseIntError)
deriving DecidableEq

/-- Embeds `Error::description` (error.rs lines 124-131): the literal
`"syntax error"` for the `Syntax` arm, and delegation to the wrapped
failure's own description for the three wrapped arms. -/
def Error.description : Error → String
  | .Syntax _ _ _ => "syntax error"
  | .Io e => e.shortDescription
  | .FromUtf8 e => e.shortDescription
  | .ParseIntError e => e.shortDescription

/-- Embeds `Error::cause` (error.rs lines 133-140): `Some` of the wrapped
failure for the three wrapped arms, `None` otherwise (the `_ => None` arm
covers `Syntax`). -/
def Error.cause : Error → Option Cause
  | .Io e => some (.ioErr e)
  | .FromUtf8 e => some (.utf8Err e)
  | .ParseIntError e => some (.parseIntErr e)
  | _ => none

/-- Embeds `impl fmt::Display for Error` (error.rs lines 143-154): the
`Syntax` arm writes `"{:?} at line {} column {}"` with the code's debug
rendering and the two positions; the wrapped arms delegate verbatim to the
wrapped failure's own `Display`. -/
def Error.displayFmt : Error → String
  | .Syntax code line col =>
      code.debugFmt ++ " at line " ++ toString line ++ " column " ++ toString col
  | .Io e => e.display
  | .FromUtf8 e => e.display
  | .ParseIntError e => e.display

/-- Embeds `impl From<io::Error> for Error` (error.rs lines 156-160). -/
def Error.fromIoError (e : IoError) : Error := .Io e

/-- Embeds `impl From<FromUtf8Error> for Error` (error.rs lines 162-166). -/
def Error.fromUtf8Error (e : FromUtf8Error) : Error := .FromUtf8 e

/-- Embeds `impl From<ParseIntError> for Error` (error.rs lines 168-172). -/
def Error.fromParseIntError (e : Hjson.ParseIntError) : Error := .ParseIntError e

/-- Embeds `fn custom` of `impl de::Error for Error` (error.rs lines
174-178): `Error::Syntax(ErrorCode::Custom(msg.to_string()), 0, 0)`,
taking the message's displayed form. -/
def deError.custom (msg : String) : Error := .Syntax (.Custom msg) 0 0

/-- Embeds `fn custom` of `impl ser::Error for Error` (error.rs lines
180-185): `Error::Syntax(ErrorCode::Custom(msg.to_string()), 0, 0)`,
taking the message's displayed form. -/
def serError.custom (msg : String) : Error := .Syntax (.Custom msg) 0 0

/-- C1: every fixed (non-custom) error category's debug rendering is exactly
the message string of the spec's table; the rendering is a function of the
category alone (it takes no position argument), so it cannot depend on any
position values. -/
theorem fixed_category_messages :
    ErrorCode.debugFmt .EOFWhileParsingList = "EOF while parsing a list" ∧
    ErrorCode.debugFmt .EOFWhileParsingObject = "EOF while parsing an object" ∧
    ErrorCode.debugFmt .EOFWhileParsingString = "EOF while parsing a string" ∧
    ErrorCode.debugFmt .EOFWhileParsingValue = "EOF while parsing a value" ∧
    ErrorCode.debugFmt .ExpectedColon = "expected `:`" ∧
    ErrorCode.debugFmt .ExpectedListCommaOrEnd = "expected `,` or `]`" ∧
    ErrorCode.debugFmt .ExpectedObjectCommaOrEnd = "expected `,` or `\x7d`" ∧
    ErrorCode.debugFmt .ExpectedSomeIdent = "expected ident" ∧
    ErrorCode.debugFmt .ExpectedSomeValue = "expected value" ∧
    ErrorCode.debugFmt .InvalidEscape = "invalid escape" ∧
    ErrorCode.debugFmt .InvalidNumber = "invalid number" ∧
    ErrorCode.debugFmt .InvalidUnicodeCodePoint = "invalid unicode code point" ∧
    ErrorCode.debugFmt .KeyMustBeAString = "key must be a string" ∧
    ErrorCode.debugFmt .LoneLeadingSurrogateInHexEscape =
      "lone leading surrogate in hex escape" ∧
    ErrorCode.debugFmt .TrailingCharacters = "trailing characters" ∧
    ErrorCode.debugFmt .UnexpectedEndOfHexEscape = "unexpected end of hex escape" ∧
    ErrorCode.debugFmt .PunctuatorInQlString =
      "found a punctuator character when expecting a quoteless string" :=
  ⟨rfl, rfl, rfl, rfl, rfl, rfl, rfl, rfl, rfl, rfl, rfl, rfl, rfl, rfl, rfl, rfl, rfl⟩

/-- C2: for every message text, both custom-message constructors (the
deserialization-side and the serialization-side entry points) produce an
error of the `Syntax` shape whose category is `Custom` carrying exactly the
input text, with line 0 and column 0 — in particular never one of the three
wrapped-foreign shapes. -/
theorem custom_constructor_shape (msg : String) :
    deError.custom msg = Error.Syntax (.Custom msg) 0 0 ∧
    serError.custom msg = Error.Syntax (.Custom msg) 0 0 :=
  ⟨rfl, rfl⟩

/-- C2 witness: the custom constructors evaluated at the concrete message
"boom". -/
theorem custom_constructor_shape_witness :
    deError.custom "boom" = Error.Syntax (.Custom "boom") 0 0 ∧
    serError.custom "boom" = Error.Syntax (.Custom "boom") 0 0 :=
  custom_constructor_shape "boom"

/-- C3: converting any foreign failure (I/O, text-decoding, or
integer-parsing) into the unified `Error` via the automatic conversion and
then retrieving it via the `cause` accessor yields the original failure
value unchanged. -/
theorem foreign_failure_roundtrip (io : IoError) (utf8 : FromUtf8Error)
    (pe : Hjson.ParseIntError) :
    (Error.fromIoError io).cause = some (.ioErr io) ∧
    (Error.fromUtf8Error utf8).cause = some (.utf8Err utf8) ∧
    (Error.fromParseIntError pe).cause = some (.parseIntErr pe) :=
  ⟨rfl, rfl, rfl⟩

/-- C4: the `cause` accessor returns `none` on every `Syntax`-shaped error,
for any category (fixed or custom) and any line/column pair including the
(0,0) sentinel, and returns `some` of the unchanged underlying failure on
each of the three wrapped-foreign shapes — which is exhaustive over the
four shapes of `Error`. -/
theorem cause_none_iff_syntax (c : ErrorCode) (l k : Nat) (io : IoError)
    (utf8 : FromUtf8Error) (pe : Hjson.ParseIntError) :
    (Error.Syntax c l k).cause = none ∧
    (Error.Io io).cause = some (.ioErr io) ∧
    (Error.FromUtf8 utf8).cause = some (.utf8Err utf8) ∧
    (Error.ParseIntError pe).cause = some (.parseIntErr pe) :=
  ⟨rfl, rfl, rfl, rfl⟩

/-- C5: the full diagnostic rendering of every `Syntax`-shaped error with
category c, line l, column k is exactly
`debugFmt c ++ " at line " ++ l ++ " column " ++ k`; at category
`ExpectedColon`, line 4, column 7 it is exactly
"expected `:` at line 4 column 7"; and on every wrapped-foreign shape the
rendering equals the wrapped failure's own display rendering verbatim. -/
theorem display_diagnostic_format (c : ErrorCode) (l k : Nat) (io : IoError)
    (utf8 : FromUtf8Error) (pe : Hjson.ParseIntError) :
    (Error.Syntax c l k).displayFmt =
      c.debugFmt ++ " at line " ++ toString l ++ " column " ++ toString k ∧
    (Error.Syntax .ExpectedColon 4 7).displayFmt =
      "expected `:` at line 4 column 7" ∧
    (Error.Io io).displayFmt = io.display ∧
    (Error.FromUtf8 utf8).displayFmt = utf8.display ∧
    (Error.ParseIntError pe).displayFmt = pe.display :=
  ⟨rfl, rfl, rfl, rfl, rfl⟩

/-- C6: the short description accessor returns the fixed literal
"syntax error" on every `Syntax`-shaped error regardless of category and
position, and on each wrapped shape it returns the wrapped foreign
failure's own short description. -/
theorem description_short_label (c : ErrorCode) (l k : Nat) (io : IoError)
    (utf8 : FromUtf8Error) (pe : Hjson.ParseIntError) :
    (Error.Syntax c l k).description = "syntax error" ∧
    (Error.Io io).description = io.shortDescription ∧
    (Error.FromUtf8 utf8).description = utf8.shortDescription ∧
    (Error.ParseIntError pe).description = pe.shortDescription :=
  ⟨rfl, rfl, rfl, rfl⟩

/-- C7 counterexample: the diagnostic string of a `Syntax` error with the
custom category "a" at position (0,0) is "a at line 0 column 0" — the raw
contained text — and not the quoted/escaped debug rendering
"\"a\" at line 0 column 0" that the claim requires. -/
theorem custom_display_not_quoted :
    (Error.Syntax (.Custom "a") 0 0).displayFmt = "a at line 0 column 0" ∧
    (Error.Syntax (.Custom "a") 0 0).displayFmt ≠ "\"a\" at line 0 column 0" := by
  constructor
  · rfl
  · decide

/-- C7 amended: in the diagnostic string of a `Syntax` error whose category
is the custom tag, the category-rendering part is the contained message
string verbatim (raw, without surrounding quotes or escapes). -/
theorem custom_display_raw_text (msg : String) (l k : Nat) :
    (Error.Syntax (.Custom msg) l k).displayFmt =
      msg ++ " at line " ++ toString l ++ " column " ++ toString k :=
  rfl

/-- C8: error-category equality is value equality — two categories compare
equal iff they carry the same tag and, when both carry the custom tag, the
same message text; and two custom categories with different texts compare
unequal. -/
theorem errorCode_value_equality :
    (∀ a b : ErrorCode, a.beq b = true ↔ a = b) ∧
    (∀ s t : String, s ≠ t →
      (ErrorCode.Custom s).beq (ErrorCode.Custom t) = false) := by
  constructor
  · intro a b
    cases a <;> cases b <;> simp [ErrorCode.beq]
  · intro s t hst
    rw [Bool.eq_false_iff]
    intro h
    exact hst (by simpa [ErrorCode.beq] using h)

/-- C8 witness: at concrete inputs, `beq` of the two identical categories
succeeds, and of two custom categories with different texts fails. -/
theorem errorCode_value_equality_witness :
    (ErrorCode.Custom "a").beq (ErrorCode.Custom "b") = false :=
  errorCode_value_equality.2 "a" "b" (by decide)

/-- C9: the deserialization-framework and serialization-framework custom
constructors are extensionally equal — for the same displayed message they
construct identical error values. -/
theorem de_ser_custom_agree (msg : String) :
    deError.custom msg = serError.custom msg :=
  rfl

/-- C10: the (0,0) "no position" sentinel is not suppressed by the full
diagnostic rendering — a `Syntax` error built by the custom-message
constructor renders as `msg ++ " at line 0 column 0"`, and every
`Syntax`-shaped error carries the " at line .. column .." suffix. -/
theorem zero_position_rendered (msg : String) (c : ErrorCode) (l k : Nat) :
    (deError.custom msg).displayFmt = msg ++ " at line 0 column 0" ∧
    (Error.Syntax c l k).displayFmt =
      c.debugFmt ++ (" at line " ++ (toString l ++ (" column " ++ toString k))) := by
  constructor
  · show msg ++ " at line " ++ toString (0 : Nat) ++ " column " ++ toString (0 : Nat) =
      msg ++ " at line 0 column 0"
    simp only [String.append_assoc]
    congr 1
  · show c.debugFmt ++ " at line " ++ toString l ++ " column " ++ toString k =
      c.debugFmt ++ (" at line " ++ (toString l ++ (" column " ++ toString k)))
    simp [String.append_assoc]

end Hjson
